import Mathlib

/-!
Shallow embedding of `basin_setup/grm.py` (GRM: Grid Resizing and Matching).

Conventions of the embedding:
* Python strings are modelled as `List Char`; Python's `s.lower()` is
  `lowerL`, substring containment `a in b` is `inStr`, `s.split(" ")` is
  `splitOnChar ' '`.
* A datetime (`pandas.Timestamp`) is modelled by `Dt`: its calendar fields
  `year`/`month`/`day` (used by the water-year computation) together with
  `hours`, the instant expressed as whole hours elapsed since a fixed global
  origin (2000-10-01 00:00).  `date()` truncation is floor division of
  `hours` by 24 (`dateOfHours`).  Times in the collection are integral hours,
  matching the code's hour-granular `date2num` arithmetic (`np.float` equality
  on exact integral hour values is exact).
* The open NetCDF collection (`self.ds`) is a `Collection` record: coordinate
  vectors `xs`/`ys`, the unlimited `time` variable as `List Int` of stored
  hour values, the `depth` variable as a list of 2-D slices, the time units
  epoch (its year, and its instant in hours since the global origin), the
  `calendar` attribute and the global `Title` attribute.  The
  `last_modified`/`dateCreated` attributes carry no claim and are omitted.
* A raster cell is `Option Int`: `none` models NaN / a missing value, and the
  no-data sentinel is the ordinary value `-9999`.
* A raised Python exception is `Except.error` carrying a `GrmError`;
  `GrmError.unboundLocal` models the `UnboundLocalError` raised when a
  function reads a never-assigned local, and `GrmError.attributeError`
  models the `AttributeError` raised when `self.start_yr` was never assigned.
-/

/-- One raster cell: `none` is NaN (missing), `some v` a stored value. -/
abbrev Val := Option Int

/-- A 2-D raster band, row major. -/
abbrev Grid := List (List Val)

/-- Errors raised by the GRM pipeline (all surfaced as Python exceptions). -/
inductive GrmError where
  | basinMismatch
  | domainMismatch
  | waterYearMismatch
  | duplicateDate
  | maskMismatch
  | unboundLocal
  | attributeError
deriving DecidableEq, Repr

/-- A datetime: calendar fields plus the instant in hours since the global
origin (2000-10-01 00:00).  The calendar fields drive the water-year logic
(lines 272-278); `hours` drives all `date2num`/`num2date` arithmetic. -/
structure Dt where
  year : Int
  month : Int
  day : Int
  hours : Int
deriving DecidableEq, Repr

/-- The reference topo grid (`self.topo_ds` / `self.ts`): coordinate vectors,
basin mask and the mask's `long_name` attribute. -/
structure Topo where
  xs : List Int
  ys : List Int
  mask : List (List Bool)
  maskLongName : List Char
deriving DecidableEq, Repr

/-- The open lidar-depths NetCDF collection (`self.ds`). -/
structure Collection where
  xs : List Int
  ys : List Int
  times : List Int
  depth : List Grid
  epochYear : Int
  epochHours : Int
  calendar : List Char
  title : List Char
deriving DecidableEq, Repr

/-- Python `s.lower()`. -/
def lowerL (s : List Char) : List Char := s.map Char.toLower

/-- Whether `needle` is an initial run of `hay` (helper for `inStr`). -/
def headMatchL : List Char → List Char → Bool
  | [], _ => true
  | _ :: _, [] => false
  | a :: as, b :: bs => a == b && headMatchL as bs

/-- Python substring containment `needle in hay`. -/
def inStr (needle : List Char) : List Char → Bool
  | [] => needle.isEmpty
  | c :: t => headMatchL needle (c :: t) || inStr needle t

/-- Python `s.split(sep)` for a one-character separator: splits at every
occurrence, keeping empty segments. -/
def splitOnChar (sep : Char) : List Char → List (List Char)
  | [] => [[]]
  | c :: rest =>
    match splitOnChar sep rest with
    | [] => [[]]
    | g :: gs => if c == sep then [] :: g :: gs else (c :: g) :: gs

/-- `np.max` over a coordinate vector (the vectors are non-empty in every
run; the `[]` default is never reached by the pipeline). -/
def listMax : List Int → Int
  | [] => 0
  | x :: xs => xs.foldl max x

/-- `np.min` over a coordinate vector. -/
def listMin : List Int → Int
  | [] => 0
  | x :: xs => xs.foldl min x

/-- Truncation of an instant (hours since the global origin) to its calendar
day, i.e. Python `datetime.date()` at hour granularity. -/
def dateOfHours (h : Int) : Int := h / 24

/-- Number of leap years in `[1..y]` of the proleptic Gregorian calendar. -/
def leapsUpto (y : Int) : Int := y / 4 - y / 100 + y / 400

/-- The instant of `y`-10-01 00:00 in hours since the global origin
(2000-10-01 00:00); realises the `standard` netCDF calendar for modern
years. -/
def oct1Hours (y : Int) : Int :=
  24 * (365 * (y - 2000) + (leapsUpto y - leapsUpto 2000))

/-- Lines 272-278 of `add_to_collection`: the water year, and the optionally
assigned `self.start_yr`.  Faithful to the source: in the `month > 10`
branch, `start_yr` is never assigned (`none`). -/
def waterYearCalc (d : Dt) : Int × Option Int :=
  let wy := d.year
  if d.month ≤ 10 then (wy, some (wy - 1)) else (wy + 1, none)

/-- The computed water year of a date. -/
def waterYear (d : Dt) : Int := (waterYearCalc d).1

/-- The time value of a date against the collection's time units: hours
elapsed from the collection's epoch to `date + 23:00`
(`nc.date2num(self.date + pd.to_timedelta(23, unit='h'), ...)`, line 364). -/
def timeValue (c : Collection) (d : Dt) : Int := d.hours + 23 - c.epochHours

/-- Index of the first exact occurrence of `t` in `xs`
(`np.where(times[:] == t)[0]` followed by `index[0]`). -/
def firstIdx (xs : List Int) (t : Int) : Option Nat :=
  match xs with
  | [] => none
  | x :: rest => if x = t then some 0 else (firstIdx rest t).map (· + 1)

/-- Assignment `var[i] = v` into a netCDF variable over the unlimited
dimension: in place for `i < len`, an append for `i = len`. -/
def setOrAppend (xs : List Int) (i : Nat) (v : Int) : List Int :=
  if i < xs.length then xs.set i v else xs ++ [v]

/-- Same assignment semantics for the `depth` variable's slices. -/
def setOrAppendG (gs : List Grid) (i : Nat) (g : Grid) : List Grid :=
  if i < gs.length then gs.set i g else gs ++ [g]

/-- `GRM.get_time_index` (lines 354-384): computes the time value `t`,
searches the existing time axis for an exact match (first position if found,
`len(times)` otherwise), then executes `self.ds.variables['time'][index] = t`
(line 382) before returning the index.  Returns the index together with the
collection as left on disk. -/
def get_time_index (c : Collection) (d : Dt) : Nat × Collection :=
  let t := timeValue c d
  let index : Nat :=
    if c.times.length ≠ 0 then
      match firstIdx c.times t with
      | some i => i
      | none => c.times.length
    else c.times.length
  (index, { c with times := setOrAppend c.times index t })

/-- `GRM.check_basin_match` error condition (line 434):
`not self.basin.lower() in self.ds.getncattr("Title").lower()`. -/
def basinError (c : Collection) (basin : List Char) : Bool :=
  !(inStr (lowerL basin) (lowerL c.title))

/-- `GRM.check_basin_match`: raises `ValueError` iff the title does not
contain the basin name. -/
def check_basin_match (c : Collection) (basin : List Char) :
    Except GrmError Unit :=
  if basinError c basin then Except.error GrmError.basinMismatch
  else Except.ok ()

/-- `GRM.check_domain_match` error condition (lines 470-486): any mismatch of
the `x`/`y` extrema or vector lengths between the incoming topo and the
collection, in the loop's order (x max, x min, x length, y max, y min,
y length). -/
def domainError (t : Topo) (c : Collection) : Bool :=
  (listMax t.xs != listMax c.xs) || (listMin t.xs != listMin c.xs) ||
  (t.xs.length != c.xs.length) ||
  (listMax t.ys != listMax c.ys) || (listMin t.ys != listMin c.ys) ||
  (t.ys.length != c.ys.length)

/-- `GRM.check_domain_match`: raises `ValueError` on any domain mismatch. -/
def check_domain_match (t : Topo) (c : Collection) : Except GrmError Unit :=
  if domainError t c then Except.error GrmError.domainMismatch
  else Except.ok ()

/-- `GRM.check_water_year_match` (lines 410-427): the collection's stored
epoch year + 1 must equal the observation's water year. -/
def check_water_year_match (c : Collection) (wy : Int) :
    Except GrmError Unit :=
  if c.epochYear + 1 ≠ wy then Except.error GrmError.waterYearMismatch
  else Except.ok ()

/-- The collection's recorded calendar dates (line 449-450):
`num2date` of every stored time value, truncated to its day. -/
def ncdates (c : Collection) : List Int :=
  c.times.map (fun tv => dateOfHours (c.epochHours + tv))

/-- `GRM.check_overwrite` (lines 443-456): raises iff the observation's
calendar date already occurs among the recorded dates
(`self.date.date() in ncdates`). -/
def check_overwrite (c : Collection) (d : Dt) : Except GrmError Unit :=
  if dateOfHours d.hours ∈ ncdates c then Except.error GrmError.duplicateDate
  else Except.ok ()

/-- Line 395-396: tokens of the lowercased mask `long_name`, with the generic
words `river` and `basin` removed. -/
def maskKeywords (longName : List Char) : List (List Char) :=
  (splitOnChar (' ') (lowerL longName)).filter
    (fun w => !(w == ("river").toList || w == ("basin").toList))

/-- The loop of `check_topo_basin_name` (lines 398-403): `found` is set to
`true` (with break) on a keyword contained in the basin name, to `false` on
each non-matching keyword; if the keyword list is empty the local `found` is
never assigned (`none`). -/
def loopFound (basinLower : List Char) :
    List (List Char) → Option Bool → Option Bool
  | [], found => found
  | k :: ks, _ =>
    if inStr k basinLower then some true
    else loopFound basinLower ks (some false)

/-- `GRM.check_topo_basin_name` (lines 386-408): on an empty keyword list the
read of the unassigned local `found` raises `UnboundLocalError`; otherwise
`handle_error` raises iff no keyword matched. -/
def check_topo_basin_name (t : Topo) (basin : List Char) :
    Except GrmError Unit :=
  match loopFound (lowerL basin) (maskKeywords t.maskLongName) none with
  | none => Except.error GrmError.unboundLocal
  | some true => Except.ok ()
  | some false => Except.error GrmError.maskMismatch

/-- Lines 330-332: the intended fill-value conversion, computed over a copy
of the band (`new_ds.variables['Band1'][:]` returns a fresh array). -/
def fill_to_nan (g : Grid) : Grid :=
  g.map (List.map (fun v => if v == some (-9999) then none else v))

/-- Lines 330-334 as they act on the stored band.  The assignment
`new_ds.variables['Band1'][:][idx] = np.nan` (line 332) mutates only the
temporary array returned by the read, which is then discarded, so the stored
band is unchanged by it; line 334 writes the vertical flip back through the
variable's own slice assignment. -/
def post_process_band1 (g : Grid) : Grid :=
  let _tmp := fill_to_nan g
  g.reverse

/-- Post-processing as the specification describes it: the sentinel cells
become missing values and the rows are flipped (both steps effective). -/
def post_process_spec (g : Grid) : Grid := (fill_to_nan g).reverse

/-- Modelled from the spec: the external `spatialnc.mask_nc` collaborator
(line 340) masks the regridded raster to the basin; cells outside the topo
mask become missing. -/
def mask_nc (mask : List (List Bool)) (g : Grid) : Grid :=
  List.zipWith (fun mrow grow =>
    List.zipWith (fun m v => if m then v else none) mrow grow) mask g

/-- The title stamped on a fresh collection (lines 240-241). -/
def mkTitle (basin : List Char) (wy : Int) : List Char :=
  ("ASO 50m Lidar Flights Over the ").toList ++ basin ++
    (" for Water Year ").toList ++ (toString wy).toList ++ (".").toList

/-- `GRM.create_lidar_netcdf` (lines 194-244): reading `self.start_yr` when
it was never assigned raises `AttributeError`; otherwise the fresh collection
copies `x`/`y` (and the projection) from the topo, adds the unlimited `time`
dimension and the `depth` variable, and stamps the time units
`hours since <start_yr>-10-01` with calendar `standard`. -/
def create_lidar_netcdf (t : Topo) (startYr : Option Int) (wy : Int)
    (basin : List Char) : Except GrmError Collection :=
  match startYr with
  | none => Except.error GrmError.attributeError
  | some y =>
      Except.ok
        { xs := t.xs
          ys := t.ys
          times := []
          depth := []
          epochYear := y
          epochHours := oct1Hours y
          calendar := ("standard").toList
          title := mkTitle basin wy }

/-- The write phase of `add_to_collection` (lines 320-348): the time index
computation (which writes the time value), then the band post-processing and
masking, then the depth-slice write. -/
def writePhase (t : Topo) (d : Dt) (g : Grid) (c : Collection) :
    Nat × Collection :=
  let ic := get_time_index c d
  (ic.1,
    { ic.2 with
      depth := setOrAppendG ic.2.depth ic.1 (mask_nc t.mask (post_process_band1 g)) })

/-- `GRM.add_to_collection`, branch for a pre-existing collection (lines
292-352): the five consistency checks in source order, then the writes. -/
def add_to_collection_existing (t : Topo) (basin : List Char) (d : Dt)
    (g : Grid) (c : Collection) : Except GrmError (Nat × Collection) :=
  (check_basin_match c basin).bind (fun _ =>
  (check_domain_match t c).bind (fun _ =>
  (check_water_year_match c (waterYear d)).bind (fun _ =>
  (check_overwrite c d).bind (fun _ =>
  (check_topo_basin_name t basin).bind (fun _ =>
    Except.ok (writePhase t d g c))))))

/-- `GRM.add_to_collection`, branch for a missing collection file (lines
315-352): `create_lidar_netcdf` then the writes. -/
def add_to_collection_new (t : Topo) (basin : List Char) (d : Dt)
    (g : Grid) : Except GrmError (Nat × Collection) :=
  let wc := waterYearCalc d
  (create_lidar_netcdf t wc.2 wc.1 basin).bind (fun c =>
    Except.ok (writePhase t d g c))

/-- The on-disk collection after a run of the existing-file branch: the raised
exception aborts before any write, so on error the file keeps its state. -/
def fileAfterAdd (t : Topo) (basin : List Char) (d : Dt) (g : Grid)
    (c : Collection) : Collection :=
  match add_to_collection_existing t basin d g c with
  | Except.ok r => r.2
  | Except.error _ => c

/-- Recording a date into the collection: the time-axis write performed by
`get_time_index`. -/
def recordDate (c : Collection) (d : Dt) : Collection :=
  (get_time_index c d).2

/-- The error, if any, of an `Except` computation. -/
def errOf {α : Type} : Except GrmError α → Option GrmError
  | Except.error e => some e
  | Except.ok _ => none

/-! ### Supporting lemmas on the time-axis search -/

theorem firstIdx_eq_none (xs : List Int) (t : Int) :
    firstIdx xs t = none ↔ t ∉ xs := by
  induction xs with
  | nil => simp [firstIdx]
  | cons x rest ih =>
    simp only [firstIdx]
    by_cases h : x = t
    · subst h
      simp
    · simp only [if_neg h, Option.map_eq_none', ih, List.mem_cons]
      constructor
      · intro hn hm
        rcases hm with hm | hm
        · exact h hm.symm
        · exact hn hm
      · intro hn hm
        exact hn (Or.inr hm)

theorem firstIdx_some (xs : List Int) (t : Int) :
    ∀ i, firstIdx xs t = some i → xs.get? i = some t := by
  induction xs with
  | nil => intro i h; simp [firstIdx] at h
  | cons x rest ih =>
    intro i h
    simp only [firstIdx] at h
    by_cases hx : x = t
    · rw [if_pos hx] at h
      cases h
      simp [hx]
    · rw [if_neg hx] at h
      rcases Option.map_eq_some'.mp h with ⟨j, hj, hji⟩
      subst hji
      simpa using ih j hj

theorem firstIdx_first (xs : List Int) (t : Int) :
    ∀ i, firstIdx xs t = some i → ∀ j, j < i → xs.get? j ≠ some t := by
  induction xs with
  | nil => intro i h; simp [firstIdx] at h
  | cons x rest ih =>
    intro i h j hj
    simp only [firstIdx] at h
    by_cases hx : x = t
    · rw [if_pos hx] at h
      cases h
      exact absurd hj (Nat.not_lt_zero j)
    · rw [if_neg hx] at h
      rcases Option.map_eq_some'.mp h with ⟨k, hk, hki⟩
      subst hki
      cases j with
      | zero => simpa using fun he => hx he
      | succ j' =>
        have := ih k hk j' (Nat.lt_of_succ_lt_succ hj)
        simpa using this

theorem firstIdx_lt (xs : List Int) (t : Int) (i : Nat)
    (h : firstIdx xs t = some i) : i < xs.length := by
  have := firstIdx_some xs t i h
  exact List.get?_eq_some.mp this |>.1

theorem firstIdx_append_self (xs : List Int) (t : Int) (h : t ∉ xs) :
    firstIdx (xs ++ [t]) t = some xs.length := by
  induction xs with
  | nil => simp [firstIdx]
  | cons x rest ih =>
    have hx : x ≠ t := fun he => h (he ▸ List.mem_cons_self x rest)
    have hr : t ∉ rest := fun hm => h (List.mem_cons_of_mem x hm)
    simp [firstIdx, if_neg hx, ih hr]

theorem set_firstIdx (xs : List Int) (t : Int) :
    ∀ i, firstIdx xs t = some i → xs.set i t = xs := by
  induction xs with
  | nil => intro i h; simp [firstIdx] at h
  | cons x rest ih =>
    intro i h
    simp only [firstIdx] at h
    by_cases hx : x = t
    · rw [if_pos hx] at h
      cases h
      simp [hx]
    · rw [if_neg hx] at h
      rcases Option.map_eq_some'.mp h with ⟨k, hk, hki⟩
      subst hki
      simp [List.set, ih k hk]

theorem get_time_index_fst (c : Collection) (d : Dt) :
    (get_time_index c d).1 =
      match firstIdx c.times (timeValue c d) with
      | some i => i
      | none => c.times.length := by
  by_cases h : c.times.length = 0
  · have he : c.times = [] := List.length_eq_zero.mp h
    simp [get_time_index, he, firstIdx]
  · simp [get_time_index, h]

theorem get_time_index_snd (c : Collection) (d : Dt) :
    (get_time_index c d).2 =
      { c with
        times := setOrAppend c.times (get_time_index c d).1 (timeValue c d) } :=
  rfl

/-! ### Claims C1-C3 -/

/-- C1: for every collection state and observation date, `get_time_index`
first converts the date to the time value `t` = hours elapsed from the
collection's epoch to the date plus 23:00 (`timeValue`), and then returns the
position of the first exact occurrence of `t` in the existing time axis when
`t` occurs there, and the current length of the time axis (the append
position) otherwise. -/
theorem grm_c1_time_index (c : Collection) (d : Dt) :
    (timeValue c d ∈ c.times →
        (get_time_index c d).1 < c.times.length ∧
        c.times.get? (get_time_index c d).1 = some (timeValue c d) ∧
        ∀ j, j < (get_time_index c d).1 →
          c.times.get? j ≠ some (timeValue c d)) ∧
    (timeValue c d ∉ c.times → (get_time_index c d).1 = c.times.length) := by
  have h0 := get_time_index_fst c d
  rcases hf : firstIdx c.times (timeValue c d) with _ | i
  · rw [hf] at h0
    refine ⟨fun hm => absurd hm ?_, fun _ => h0⟩
    exact (firstIdx_eq_none c.times (timeValue c d)).mp hf
  · rw [hf] at h0
    refine ⟨fun _ => ?_, fun hnm => ?_⟩
    · rw [h0]
      exact ⟨firstIdx_lt c.times (timeValue c d) i hf,
             firstIdx_some c.times (timeValue c d) i hf,
             firstIdx_first c.times (timeValue c d) i hf⟩
    · exact absurd hf (by simp [(firstIdx_eq_none c.times (timeValue c d)).mpr hnm])

/-- Witness collection for the time-index claims: epoch 2019-10-01 stored at
hour offset 0 from the global origin (placement is immaterial to the
claims). -/
def cW : Collection :=
  { xs := [0], ys := [0], times := [100, 47, 200], depth := [],
    epochYear := 2019, epochHours := 0,
    calendar := ("standard").toList, title := ("t").toList }

/-- Witness date whose time value 47 occurs in `cW.times` at position 1. -/
def dW : Dt := { year := 2019, month := 10, day := 2, hours := 24 }

theorem grm_c1_witness :
    timeValue cW dW ∈ cW.times ∧
    cW.times.get? (get_time_index cW dW).1 = some (timeValue cW dW) :=
  ⟨by decide, ((grm_c1_time_index cW dW).1 (by decide)).2.1⟩

/-- Witness date whose time value 23 is absent from `cW.times`, so its
index computation appends. -/
def dW2 : Dt := { year := 2019, month := 10, day := 1, hours := 0 }

/-- C2 counterexample: the claim says the index computation leaves the
collection unchanged, but `get_time_index` executes
`self.ds.variables['time'][index] = t` (line 382): on the concrete state
`cW` and date `dW2` the time axis grows from 3 to 4 entries. -/
theorem grm_c2_cex : (get_time_index cW dW2).2.times ≠ cW.times := by decide

/-- C2 amended: `get_time_index` is not read-only: it writes the time value
at the returned index (an append when the value is new, a rewrite of the
identical value in place when it already occurs), leaves every other field of
the collection unchanged, and recomputing the index against the updated state
yields the same index. -/
theorem grm_c2_mutation (c : Collection) (d : Dt) :
    (get_time_index c d).2 =
      { c with
        times := setOrAppend c.times (get_time_index c d).1 (timeValue c d) } ∧
    (get_time_index (get_time_index c d).2 d).1 = (get_time_index c d).1 := by
  refine ⟨get_time_index_snd c d, ?_⟩
  have h0 := get_time_index_fst c d
  rcases hf : firstIdx c.times (timeValue c d) with _ | i
  · rw [hf] at h0
    have hnm : timeValue c d ∉ c.times :=
      (firstIdx_eq_none c.times (timeValue c d)).mp hf
    have hsnd : (get_time_index c d).2.times = c.times ++ [timeValue c d] := by
      rw [get_time_index_snd, h0]
      simp [setOrAppend]
    have htv : timeValue (get_time_index c d).2 d = timeValue c d := rfl
    have h1 := get_time_index_fst (get_time_index c d).2 d
    rw [htv, hsnd] at h1
    rw [firstIdx_append_self c.times (timeValue c d) hnm] at h1
    rw [h1, h0]
  · rw [hf] at h0
    have hlt := firstIdx_lt c.times (timeValue c d) i hf
    have hsnd : (get_time_index c d).2 = c := by
      rw [get_time_index_snd, h0]
      simp [setOrAppend, hlt, set_firstIdx c.times (timeValue c d) i hf]
    rw [hsnd]

/-- C3: the water year equals the calendar year when the date's month is at
most 10, and the calendar year plus 1 when the month exceeds 10; in
particular 2020-04-14 yields 2020 and 2019-11-03 yields 2020 (lines
272-278). -/
theorem grm_c3_water_year (d : Dt) :
    (d.month ≤ 10 → waterYear d = d.year) ∧
    (10 < d.month → waterYear d = d.year + 1) ∧
    waterYear { year := 2020, month := 4, day := 14, hours := 171240 } = 2020 ∧
    waterYear { year := 2019, month := 11, day := 3, hours := 167328 } = 2020 := by
  refine ⟨fun h => ?_, fun h => ?_, by decide, by decide⟩
  · simp [waterYear, waterYearCalc, h]
  · simp [waterYear, waterYearCalc, Int.not_le.mpr h]

theorem grm_c3_witness :
    (4 : Int) ≤ 10 ∧
    waterYear { year := 2020, month := 4, day := 14, hours := 171240 } = 2020 :=
  ⟨by decide, (grm_c3_water_year _).1 (by decide)⟩

/-! ### Claim C4: the consistency checks gate every write -/

/-- C4: in the existing-collection branch all five consistency checks are
pure queries sequenced (in source order: basin, domain, water year,
duplicate date, mask name) before any write; when the basin check passes and
the domain check fails (mismatching `x`/`y` extrema or vector lengths), the
domain-mismatch error is raised and the on-disk collection — in particular
its time axis — is unchanged. -/
theorem grm_c4_checks_gate (t : Topo) (basin : List Char) (d : Dt) (g : Grid)
    (c : Collection)
    (hb : basinError c basin = false)
    (hd : domainError t c = true) :
    add_to_collection_existing t basin d g c =
      Except.error GrmError.domainMismatch ∧
    fileAfterAdd t basin d g c = c ∧
    (∀ (t' : Topo) (b' : List Char) (d' : Dt) (g' : Grid) (c' : Collection)
        (e : GrmError),
      add_to_collection_existing t' b' d' g' c' = Except.error e →
      fileAfterAdd t' b' d' g' c' = c') := by
  have h1 : add_to_collection_existing t basin d g c =
      Except.error GrmError.domainMismatch := by
    simp [add_to_collection_existing, check_basin_match, hb,
      check_domain_match, hd, Except.bind]
  refine ⟨h1, by simp [fileAfterAdd, h1], ?_⟩
  intro t' b' d' g' c' e he
  simp [fileAfterAdd, he]

/-- Witness topo for the domain-mismatch scenario: extent up to 90 against a
collection whose extent goes up to 100. -/
def topoW : Topo :=
  { xs := [0, 90], ys := [0, 90], mask := [[true]],
    maskLongName := ("kaweah river basin").toList }

/-- Witness collection created from a reference grid of extent up to 100. -/
def colW : Collection :=
  { xs := [0, 100], ys := [0, 100], times := [119], depth := [],
    epochYear := 2019, epochHours := 0,
    calendar := ("standard").toList,
    title := ("ASO 50m Lidar Flights Over the Kaweah River Basin for Water Year 2020.").toList }

/-- Witness basin display name matching `colW`'s title. -/
def basinW : List Char := ("Kaweah River Basin").toList

/-- Witness observation date. -/
def dW4 : Dt := { year := 2020, month := 4, day := 14, hours := 171240 }

/-- Witness regridded band. -/
def gW : Grid := [[some 1]]

theorem grm_c4_witness :
    basinError colW basinW = false ∧ domainError topoW colW = true ∧
    add_to_collection_existing topoW basinW dW4 gW colW =
      Except.error GrmError.domainMismatch ∧
    fileAfterAdd topoW basinW dW4 gW colW = colW :=
  ⟨by decide, by decide,
    (grm_c4_checks_gate topoW basinW dW4 gW colW (by decide) (by decide)).1,
    (grm_c4_checks_gate topoW basinW dW4 gW colW (by decide) (by decide)).2.1⟩

/-! ### Claim C5: the duplicate-date check -/

theorem timeValue_mem_recordDate (c : Collection) (d : Dt) :
    timeValue c d ∈ (recordDate c d).times := by
  have h0 := get_time_index_fst c d
  have hsnd := get_time_index_snd c d
  rcases hf : firstIdx c.times (timeValue c d) with _ | i
  · rw [hf] at h0
    simp only [recordDate, hsnd, h0, setOrAppend]
    rw [if_neg (lt_irrefl c.times.length)]
    exact List.mem_append_right _ (List.mem_singleton_self _)
  · rw [hf] at h0
    have hlt := firstIdx_lt c.times (timeValue c d) i hf
    simp only [recordDate, hsnd, h0, setOrAppend, if_pos hlt,
      set_firstIdx c.times (timeValue c d) i hf]
    exact List.get?_mem (firstIdx_some c.times (timeValue c d) i hf)

theorem dateOfHours_add23 (h : Int) (hm : h % 24 = 0) :
    dateOfHours (h + 23) = dateOfHours h := by
  simp only [dateOfHours]
  omega

/-- C5 counterexample collection: fresh, epoch at the global origin. -/
def colC5 : Collection :=
  { xs := [0], ys := [0], times := [], depth := [], epochYear := 2000,
    epochHours := 0, calendar := ("standard").toList, title := ("t").toList }

/-- C5 counterexample first date: 01:00 on the epoch day. -/
def d1C5 : Dt := { year := 2000, month := 10, day := 1, hours := 1 }

/-- C5 counterexample second date: midnight of the same day. -/
def d2C5 : Dt := { year := 2000, month := 10, day := 1, hours := 0 }

/-- C5 counterexample: `d1C5 ≠ d2C5` have the same truncated day, yet after
recording `d1C5` (whose stored time value `1 + 23 = 24` falls on the *next*
day once truncated) the duplicate-date check accepts `d2C5` instead of
rejecting it. -/
theorem grm_c5_cex :
    d1C5 ≠ d2C5 ∧ dateOfHours d1C5.hours = dateOfHours d2C5.hours ∧
    errOf (check_overwrite (recordDate colC5 d1C5) d2C5) = none := by decide

/-- C5 amended: the duplicate-date check fails exactly when the observation's
truncated date occurs among the collection's recorded dates, and the date
recorded for an observation `d1` is the truncated day of `d1 + 23:00`; hence
once an observation `d1` whose time-of-day is 00:00 (as every
filename-parsed date is) has been recorded, any observation of the same
calendar day is rejected with the duplicate-date error. -/
theorem grm_c5_amended (c : Collection) (d1 d2 : Dt)
    (hday : dateOfHours d2.hours = dateOfHours d1.hours)
    (hmid : d1.hours % 24 = 0) :
    check_overwrite (recordDate c d1) d2 =
      Except.error GrmError.duplicateDate := by
  have hmem : timeValue c d1 ∈ (recordDate c d1).times :=
    timeValue_mem_recordDate c d1
  have hep : (recordDate c d1).epochHours = c.epochHours := rfl
  have hdate : dateOfHours ((recordDate c d1).epochHours + timeValue c d1)
      = dateOfHours d2.hours := by
    rw [hep, timeValue]
    have : c.epochHours + (d1.hours + 23 - c.epochHours) = d1.hours + 23 := by
      ring
    rw [this, dateOfHours_add23 d1.hours hmid, hday]
  have hin : dateOfHours d2.hours ∈ ncdates (recordDate c d1) := by
    rw [← hdate]
    exact List.mem_map_of_mem
      (fun tv => dateOfHours ((recordDate c d1).epochHours + tv)) hmem
  simp [check_overwrite, hin]

/-- C5 witness first date: midnight of a day. -/
def d1C5w : Dt := { year := 2000, month := 10, day := 1, hours := 0 }

/-- C5 witness second date: 05:00 of the same day. -/
def d2C5w : Dt := { year := 2000, month := 10, day := 1, hours := 5 }

theorem grm_c5_witness :
    dateOfHours d2C5w.hours = dateOfHours d1C5w.hours ∧
    d1C5w.hours % 24 = 0 ∧
    check_overwrite (recordDate colC5 d1C5w) d2C5w =
      Except.error GrmError.duplicateDate :=
  ⟨by decide, by decide, grm_c5_amended colC5 d1C5w d2C5w (by decide) (by decide)⟩

/-! ### Claim C6: collection creation and the unassigned start year -/

/-- Topo for the creation scenarios. -/
def topoN : Topo :=
  { xs := [0, 50, 100], ys := [0, 50, 100], mask := [[true]],
    maskLongName := ("kaweah river basin").toList }

/-- Basin display name for the creation scenarios. -/
def basinN : List Char := ("Kaweah River Basin").toList

/-- First observation of water year 2020 dated 2019-11-03 (month 11). -/
def dtNov : Dt := { year := 2019, month := 11, day := 3, hours := 167328 }

/-- Band for the creation scenarios. -/
def gN : Grid := [[some 2]]

/-- Creation outcome for a month-4 observation, where `start_yr` was
assigned: `create_lidar_netcdf topoN (some 2019) 2020 basinN`. -/
def createdApr : Except GrmError Collection :=
  create_lidar_netcdf topoN (some 2019) 2020 basinN

/-- C6 evidence: for a first observation with month at most 10 the collection
is created as the claim states (time units epoch year = water year − 1,
calendar `standard`, empty unlimited time axis, spatial coordinates copied
from the reference grid); but for a first observation dated 2019-11-03
(month 11) the `month > 10` branch of lines 272-278 leaves `start_yr`
unassigned, so `create_lidar_netcdf` reads a missing attribute and the whole
add raises `AttributeError` instead of creating the collection. -/
theorem grm_c6_start_yr :
    waterYearCalc dtNov = (2020, none) ∧
    errOf (add_to_collection_new topoN basinN dtNov gN) =
      some GrmError.attributeError ∧
    waterYearCalc dW4 = (2020, some 2019) ∧
    createdApr.toOption.map Collection.epochYear = some (2020 - 1) ∧
    createdApr.toOption.map Collection.calendar =
      some (("standard").toList) ∧
    createdApr.toOption.map Collection.times = some [] ∧
    createdApr.toOption.map Collection.depth = some [] ∧
    createdApr.toOption.map Collection.xs = some topoN.xs ∧
    createdApr.toOption.map Collection.ys = some topoN.ys := by
  refine ⟨by decide, by decide, by decide, ?_, ?_, ?_, ?_, ?_, ?_⟩ <;> rfl

/-! ### Claim C7: the fill-value conversion never reaches the stored band -/

/-- Regridded band holding one no-data sentinel cell and one valid cell. -/
def g7 : Grid := [[some (-9999), some 5]]

/-- C7 evidence: on the stored band the code performs only the vertical flip;
the sentinel-to-NaN assignment of lines 330-332 mutates a temporary copy
returned by the read and is discarded, so the sentinel survives, while the
claimed post-processing (both steps effective, `post_process_spec`) would
have replaced it by the missing-value marker. -/
theorem grm_c7_fill_nan :
    post_process_band1 g7 = [[some (-9999), some 5]] ∧
    post_process_spec g7 = [[none, some 5]] ∧
    post_process_band1 g7 ≠ post_process_spec g7 := by
  refine ⟨rfl, rfl, by decide⟩

/-! ### Claim C10: the mask-name check on a fully generic mask name -/

/-- C10: when the non-generic keyword list of the topo mask's display name is
empty (the name consists only of the words `river` and `basin`), the loop of
`check_topo_basin_name` never assigns the local `found`, and the subsequent
read of `found` raises `UnboundLocalError` — neither a pass, nor the
documented mask-mismatch error. -/
theorem grm_c10_unbound (t : Topo) (basin : List Char)
    (h : maskKeywords t.maskLongName = []) :
    check_topo_basin_name t basin = Except.error GrmError.unboundLocal := by
  simp [check_topo_basin_name, h, loopFound]

/-- Topo whose mask display name consists only of generic words. -/
def topoGeneric : Topo :=
  { xs := [0], ys := [0], mask := [[true]],
    maskLongName := ("River Basin").toList }

theorem grm_c10_witness :
    maskKeywords topoGeneric.maskLongName = [] ∧
    check_topo_basin_name topoGeneric basinN =
      Except.error GrmError.unboundLocal :=
  ⟨by decide, grm_c10_unbound topoGeneric basinN (by decide)⟩

/-! ### The orchestrator (`main`, lines 501-648) -/

/-- Python dict assignment `m[k] = v` on an association list: updates the
existing entry in place when the key exists, appends otherwise. -/
def dictInsert (m : List (Int × Nat)) (k : Int) (v : Nat) :
    List (Int × Nat) :=
  if k ∈ m.map Prod.fst then
    m.map (fun p => if p.1 = k then (k, v) else p)
  else m ++ [(k, v)]

/-- One fold step of the dict comprehension. -/
def dictStep (m : List (Int × Nat)) (p : Int × Nat) : List (Int × Nat) :=
  dictInsert m p.1 p.2

/-- `image_dict = {k: v for (k, v) in zip(dates, images)}` (line 599): later
pairs with an equal date silently overwrite earlier ones. -/
def buildDict (l : List (Int × Nat)) : List (Int × Nat) :=
  l.foldl dictStep []

/-- Insertion into a key-sorted association list. -/
def insertSorted (p : Int × Nat) : List (Int × Nat) → List (Int × Nat)
  | [] => [p]
  | q :: qs => if p.1 ≤ q.1 then p :: q :: qs else q :: insertSorted p qs

/-- `for d in sorted(image_dict.keys()): f = image_dict[d]` (lines 604-605):
the dict entries in ascending date order. -/
def sortByKey (l : List (Int × Nat)) : List (Int × Nat) :=
  l.foldr insertSorted []

/-- The per-image loop (lines 604-629): `runOne` is the `run_grm` call,
telling whether the image processed without an exception.  In the default
mode (`strict = false`) an exception is caught, the image is skipped and the
skip counter incremented; in strict mode (`--debug` without
`--allow_exceptions`) the first exception propagates and aborts the loop.
Returns the attempted entries in order, the skip count, and the abort flag. -/
def processLoop (strict : Bool) (runOne : Int → Nat → Bool) :
    List (Int × Nat) → List (Int × Nat) × Nat × Bool
  | [] => ([], 0, false)
  | p :: ps =>
    if runOne p.1 p.2 then
      let r := processLoop strict runOne ps
      (p :: r.1, r.2.1, r.2.2)
    else if strict then ([p], 0, true)
    else
      let r := processLoop strict runOne ps
      (p :: r.1, r.2.1 + 1, r.2.2)

/-- The run summary: the images actually attempted (in processing order), the
skip counter, and the final report `<processed>/<total>` of lines 637-643,
whose two counts come from the full image list.  `completed = false` models a
strict-mode abort, where the summary line is never printed. -/
structure MainSummary where
  attempted : List (Int × Nat)
  skips : Nat
  reportedProcessed : Nat
  reportedTotal : Nat
  completed : Bool
deriving DecidableEq, Repr

/-- `main` (lines 584-643) after argument parsing: pairs the dates with the
images (raising when the counts differ, line 593), builds the date-keyed
image dict, processes its entries sorted by date, and reports
`(len(images) - skips) / len(images)`. -/
def runBatch (strict : Bool) (runOne : Int → Nat → Bool)
    (dates : List Int) (imgs : List Nat) : Option MainSummary :=
  if dates.length ≠ imgs.length then none
  else
    let r := processLoop strict runOne (sortByKey (buildDict (dates.zip imgs)))
    some { attempted := r.1
           skips := r.2.1
           reportedProcessed := imgs.length - r.2.1
           reportedTotal := imgs.length
           completed := !r.2.2 }

/-- Number of entries whose processing raises. -/
def countFail (runOne : Int → Nat → Bool) (l : List (Int × Nat)) : Nat :=
  l.countP (fun p => !(runOne p.1 p.2))

theorem processLoop_false (runOne : Int → Nat → Bool) (l : List (Int × Nat)) :
    processLoop false runOne l = (l, countFail runOne l, false) := by
  induction l with
  | nil => simp [processLoop, countFail]
  | cons p ps ih =>
    by_cases h : runOne p.1 p.2 <;>
      simp [processLoop, h, ih, countFail, List.countP_cons]

theorem runBatch_false (runOne : Int → Nat → Bool) (dates : List Int)
    (imgs : List Nat) (h : dates.length = imgs.length) :
    runBatch false runOne dates imgs = some
      { attempted := sortByKey (buildDict (dates.zip imgs))
        skips := countFail runOne (sortByKey (buildDict (dates.zip imgs)))
        reportedProcessed :=
          imgs.length - countFail runOne (sortByKey (buildDict (dates.zip imgs)))
        reportedTotal := imgs.length
        completed := true } := by
  simp [runBatch, h, processLoop_false]

/-! ### Dict-collision counting lemmas (for C9) -/

theorem dictInsert_length_le (m : List (Int × Nat)) (k : Int) (v : Nat) :
    (dictInsert m k v).length ≤ m.length + 1 := by
  by_cases h : k ∈ m.map Prod.fst <;> simp [dictInsert, h]

theorem dictInsert_length_of_mem (m : List (Int × Nat)) (k : Int) (v : Nat)
    (h : k ∈ m.map Prod.fst) : (dictInsert m k v).length = m.length := by
  simp [dictInsert, h]

theorem keys_sub_dictInsert (m : List (Int × Nat)) (k : Int) (v : Nat)
    (a : Int) (ha : a ∈ m.map Prod.fst) :
    a ∈ (dictInsert m k v).map Prod.fst := by
  by_cases h : k ∈ m.map Prod.fst
  · rcases List.mem_map.mp ha with ⟨p, hp, hpa⟩
    simp only [dictInsert, if_pos h]
    apply List.mem_map.mpr
    refine ⟨if p.1 = k then (k, v) else p, List.mem_map_of_mem _ hp, ?_⟩
    by_cases hk : p.1 = k
    · simp only [if_pos hk]
      rw [← hpa, hk]
    · simp only [if_neg hk]
      exact hpa
  · simp only [dictInsert, if_neg h, List.map_append]
    exact List.mem_append_left _ ha

theorem self_mem_keys_dictInsert (m : List (Int × Nat)) (k : Int) (v : Nat) :
    k ∈ (dictInsert m k v).map Prod.fst := by
  by_cases h : k ∈ m.map Prod.fst
  · rcases List.mem_map.mp h with ⟨p, hp, hpk⟩
    simp only [dictInsert, if_pos h]
    apply List.mem_map.mpr
    refine ⟨(k, v), List.mem_map.mpr ⟨p, hp, by simp [hpk]⟩, rfl⟩
  · simp [dictInsert, h]

theorem foldl_dictStep_length_le (l : List (Int × Nat)) :
    ∀ m : List (Int × Nat),
      (l.foldl dictStep m).length ≤ m.length + l.length := by
  induction l with
  | nil => intro m; simp
  | cons p ps ih =>
    intro m
    have h1 := ih (dictStep m p)
    have h2 := dictInsert_length_le m p.1 p.2
    simp only [List.foldl_cons, List.length_cons]
    have h3 : (dictStep m p).length ≤ m.length + 1 := h2
    omega

theorem foldl_dictStep_length_lt_of_mem (l : List (Int × Nat)) :
    ∀ m : List (Int × Nat), (∃ p ∈ l, p.1 ∈ m.map Prod.fst) →
      (l.foldl dictStep m).length + 1 ≤ m.length + l.length := by
  induction l with
  | nil =>
    rintro m ⟨p, hp, _⟩
    exact absurd hp (List.not_mem_nil p)
  | cons q ps ih =>
    rintro m ⟨p, hp, hpm⟩
    rcases List.mem_cons.mp hp with rfl | hp'
    · have h1 : (dictStep m p).length = m.length :=
        dictInsert_length_of_mem m p.1 p.2 hpm
      have h2 := foldl_dictStep_length_le ps (dictStep m p)
      simp only [List.foldl_cons, List.length_cons]
      omega
    · have hkeys : p.1 ∈ (dictStep m q).map Prod.fst :=
        keys_sub_dictInsert m q.1 q.2 p.1 hpm
      have h2 := ih (dictStep m q) ⟨p, hp', hkeys⟩
      have h3 : (dictStep m q).length ≤ m.length + 1 :=
        dictInsert_length_le m q.1 q.2
      simp only [List.foldl_cons, List.length_cons]
      omega

theorem foldl_dictStep_length_lt_of_dup (l : List (Int × Nat)) :
    ∀ m : List (Int × Nat), ¬ (l.map Prod.fst).Nodup →
      (l.foldl dictStep m).length + 1 ≤ m.length + l.length := by
  induction l with
  | nil =>
    intro m h
    exact absurd List.nodup_nil h
  | cons q ps ih =>
    intro m h
    by_cases hq : q.1 ∈ ps.map Prod.fst
    · rcases List.mem_map.mp hq with ⟨p, hp, hpk⟩
      have hself : p.1 ∈ (dictStep m q).map Prod.fst := by
        rw [hpk]
        exact self_mem_keys_dictInsert m q.1 q.2
      have h2 := foldl_dictStep_length_lt_of_mem ps (dictStep m q) ⟨p, hp, hself⟩
      have h3 : (dictStep m q).length ≤ m.length + 1 :=
        dictInsert_length_le m q.1 q.2
      simp only [List.foldl_cons, List.length_cons]
      omega
    · have hps : ¬ (ps.map Prod.fst).Nodup := by
        intro hn
        exact h (by simpa [List.nodup_cons] using And.intro hq hn)
      have h2 := ih (dictStep m q) hps
      have h3 : (dictStep m q).length ≤ m.length + 1 :=
        dictInsert_length_le m q.1 q.2
      simp only [List.foldl_cons, List.length_cons]
      omega

theorem buildDict_length_lt (l : List (Int × Nat))
    (h : ¬ (l.map Prod.fst).Nodup) : (buildDict l).length < l.length := by
  have h1 := foldl_dictStep_length_lt_of_dup l [] h
  simp only [List.length_nil, Nat.zero_add] at h1
  exact Nat.lt_of_succ_le (by simpa [buildDict] using h1)

theorem insertSorted_length (p : Int × Nat) (l : List (Int × Nat)) :
    (insertSorted p l).length = l.length + 1 := by
  induction l with
  | nil => rfl
  | cons q qs ih => by_cases h : p.1 ≤ q.1 <;> simp [insertSorted, h, ih]

theorem sortByKey_length (l : List (Int × Nat)) :
    (sortByKey l).length = l.length := by
  induction l with
  | nil => rfl
  | cons p ps ih =>
    simp only [sortByKey, List.foldr_cons] at *
    rw [insertSorted_length, ih, List.length_cons]

/-! ### Claims C8 and C9 -/

/-- The `runOne` of the 3-observation example: the observation dated 1 (the
second in date order) raises. -/
def exRun : Int → Nat → Bool := fun d _ => !(d == 1)

/-- C8: in the default (non-strict) mode an exception is caught per
observation: every entry of the date-keyed batch is attempted regardless of
other entries failing, the skip counter counts exactly the failing entries,
and the final summary reports `(total − skips)/total` with the total taken
from the image list; in particular a 3-observation batch whose second
observation fails reports 2/3 processed with exactly one skip. -/
theorem grm_c8_batch (dates : List Int) (imgs : List Nat)
    (runOne : Int → Nat → Bool) (hlen : dates.length = imgs.length) :
    runBatch false runOne dates imgs = some
      { attempted := sortByKey (buildDict (dates.zip imgs))
        skips := countFail runOne (sortByKey (buildDict (dates.zip imgs)))
        reportedProcessed :=
          imgs.length - countFail runOne (sortByKey (buildDict (dates.zip imgs)))
        reportedTotal := imgs.length
        completed := true } ∧
    runBatch false exRun [0, 1, 2] [10, 11, 12] = some
      { attempted := [(0, 10), (1, 11), (2, 12)]
        skips := 1
        reportedProcessed := 2
        reportedTotal := 3
        completed := true } :=
  ⟨runBatch_false runOne dates imgs hlen, by decide⟩

theorem grm_c8_witness :
    ([0, 1, 2] : List Int).length = ([10, 11, 12] : List Nat).length ∧
    runBatch false exRun [0, 1, 2] [10, 11, 12] = some
      { attempted := sortByKey (buildDict (([0, 1, 2] : List Int).zip [10, 11, 12]))
        skips := countFail exRun
          (sortByKey (buildDict (([0, 1, 2] : List Int).zip [10, 11, 12])))
        reportedProcessed := ([10, 11, 12] : List Nat).length - countFail exRun
          (sortByKey (buildDict (([0, 1, 2] : List Int).zip [10, 11, 12])))
        reportedTotal := ([10, 11, 12] : List Nat).length
        completed := true } :=
  ⟨by decide, (grm_c8_batch [0, 1, 2] [10, 11, 12] exRun (by decide)).1⟩

/-- C9: when two or more images of a batch carry the same date, the
date-keyed dict drops all but one image per date, so strictly fewer entries
are attempted than images were given; yet the summary's total and processed
counts are computed from the full image list: the reported total is the
image count, the reported processed count is `images − skips`, and it
strictly exceeds the number of actually processed (attempted and not
skipped) observations — the collided images are reported as processed
without ever being attempted. -/
theorem grm_c9_collision (dates : List Int) (imgs : List Nat)
    (runOne : Int → Nat → Bool)
    (hlen : dates.length = imgs.length) (hdup : ¬ dates.Nodup) :
    ∃ s, runBatch false runOne dates imgs = some s ∧
      s.attempted.length < imgs.length ∧
      s.reportedTotal = imgs.length ∧
      s.reportedProcessed = imgs.length - s.skips ∧
      s.skips ≤ s.attempted.length ∧
      s.attempted.length - s.skips < s.reportedProcessed := by
  refine ⟨_, runBatch_false runOne dates imgs hlen, ?_, rfl, rfl, ?_, ?_⟩
  · have hkeys : (dates.zip imgs).map Prod.fst = dates :=
      List.map_fst_zip dates imgs (le_of_eq hlen)
    have hdk : ¬ ((dates.zip imgs).map Prod.fst).Nodup := by
      rw [hkeys]; exact hdup
    have hlt := buildDict_length_lt (dates.zip imgs) hdk
    have hz : (dates.zip imgs).length = imgs.length := by
      rw [List.length_zip, hlen, min_self]
    have := sortByKey_length (buildDict (dates.zip imgs))
    simp only [this]
    omega
  · exact List.countP_le_length _
  · have hkeys : (dates.zip imgs).map Prod.fst = dates :=
      List.map_fst_zip dates imgs (le_of_eq hlen)
    have hdk : ¬ ((dates.zip imgs).map Prod.fst).Nodup := by
      rw [hkeys]; exact hdup
    have hlt := buildDict_length_lt (dates.zip imgs) hdk
    have hz : (dates.zip imgs).length = imgs.length := by
      rw [List.length_zip, hlen, min_self]
    have hsl := sortByKey_length (buildDict (dates.zip imgs))
    have hcp : countFail runOne (sortByKey (buildDict (dates.zip imgs))) ≤
        (sortByKey (buildDict (dates.zip imgs))).length :=
      List.countP_le_length _
    simp only [hsl] at *
    omega

theorem grm_c9_witness :
    ([5, 5] : List Int).length = ([1, 2] : List Nat).length ∧
    ¬ ([5, 5] : List Int).Nodup ∧
    (∃ s, runBatch false (fun _ _ => true) [5, 5] [1, 2] = some s ∧
      s.attempted.length < ([1, 2] : List Nat).length ∧
      s.reportedTotal = ([1, 2] : List Nat).length ∧
      s.reportedProcessed = ([1, 2] : List Nat).length - s.skips ∧
      s.skips ≤ s.attempted.length ∧
      s.attempted.length - s.skips < s.reportedProcessed) :=
  ⟨by decide, by decide,
    grm_c9_collision [5, 5] [1, 2] (fun _ _ => true) (by decide) (by decide)⟩
